import Mathlib

/-!
# Verification of the search-API request handler

A shallow embedding of the request-handling logic of the `perplexity-clone`
repository (the `/api/search` route handler): request validation and
sanitization, the fixed-window in-memory rate limiter, the search-source
fetcher's response mapping, the answer synthesizer's context construction,
the security-header helper, and the top-level handler with its error
classification.  External effects (the HTTP fetches, the language-model call,
`Date.now()`) are passed in as explicit inputs; the shared rate-limit map is
threaded as explicit state.
-/

/-- A JavaScript/JSON value, as a decoded request body can be. -/
inductive JSValue where
  | nullV
  | undefinedV
  | boolV (b : Bool)
  | numV (n : Int)
  | strV (s : String)
  | objV (fields : List (String × JSValue))
  | arrV (elems : List JSValue)

/-- JavaScript truthiness of a value. -/
def truthy : JSValue → Bool
  | .nullV => false
  | .undefinedV => false
  | .boolV b => b
  | .numV n => n != 0
  | .strV s => s != ""
  | .objV _ => true
  | .arrV _ => true

/-- The result of JavaScript `typeof` (note `typeof null` is `"object"`). -/
def jsTypeof : JSValue → String
  | .nullV => "object"
  | .undefinedV => "undefined"
  | .boolV _ => "boolean"
  | .numV _ => "number"
  | .strV _ => "string"
  | .objV _ => "object"
  | .arrV _ => "object"

/-- Property access `v[name]` on an object; `undefined` elsewhere (the code
only accesses named fields on values it has checked to be objects). -/
def getField : JSValue → String → JSValue
  | .objV fields, name =>
    match fields.lookup name with
    | some v => v
    | none => .undefinedV
  | _, _ => .undefinedV

/-- The underlying string of a string value (only used under a
`typeof v === "string"` guard). -/
def asStr : JSValue → String
  | .strV s => s
  | _ => ""

/-- JavaScript `v || d` for a nullable string `v` (empty string is falsy). -/
def jsOrStr (v : Option String) (d : String) : String :=
  match v with
  | some s => if s = "" then d else s
  | none => d

/-- The denylist of the sanitization regex `/[<>\"'&]/g`. -/
def isDeny (c : Char) : Bool :=
  c == '<' || c == '>' || c == '"' || c == '\'' || c == '&'

/-- `trimmed.replace(/[<>\"'&]/g, '')`: strip every denylisted character. -/
def sanitize (s : String) : String :=
  String.mk (s.data.filter (fun c => !(isDeny c)))

/-- The WhiteSpace and LineTerminator characters recognised by JavaScript
string trimming (restricted to the ASCII ones plus NBSP and BOM). -/
def isJsWs (c : Char) : Bool :=
  c == ' ' || c == '\t' || c == '\n' || c == '\r' ||
  c == '\x0b' || c == '\x0c' || c == '\u00A0' || c == '\uFEFF'

/-- JavaScript `s.trim()`: remove leading and trailing whitespace. -/
def jsTrim (s : String) : String :=
  String.mk (((s.data.dropWhile isJsWs).reverse.dropWhile isJsWs).reverse)

/-- The validated request: `{ query: string; location?: string }`. -/
structure SearchRequest where
  query : String
  location : Option String
deriving DecidableEq, Repr

/-- `validateSearchRequest(body)`: validate and sanitize the decoded request
body, returning a `SearchRequest` or throwing an error message. -/
def validateSearchRequest (body : JSValue) : Except String SearchRequest :=
  if !(truthy body) || jsTypeof body != "object" then
    .error "Invalid request body"
  else
    let query := getField body "query"
    let location := getField body "location"
    if !(truthy query) || jsTypeof query != "string" then
      .error "Query is required and must be a string"
    else
      let trimmedQuery := jsTrim (asStr query)
      if trimmedQuery.length == 0 then
        .error "Query cannot be empty"
      else if trimmedQuery.length > 500 then
        .error "Query is too long (max 500 characters)"
      else
        let sanitizedQuery := sanitize trimmedQuery
        if sanitizedQuery.length == 0 then
          .error "Query contains only invalid characters"
        else
          let loc : Option String :=
            if truthy location && jsTypeof location == "string" then
              let trimmedLocation := jsTrim (asStr location)
              if trimmedLocation.length > 0 && trimmedLocation.length ≤ 100 then
                some (sanitize trimmedLocation)
              else
                none
            else
              none
          .ok { query := sanitizedQuery, location := loc }

/-- One entry of the in-memory rate-limit map:
`{ count: number; resetTime: number }`. -/
structure RateLimitEntry where
  count : Nat
  resetTime : Nat
deriving DecidableEq, Repr

/-- The process-wide `rateLimitStore` map, keyed by client identifier. -/
def RateLimitStore := List (String × RateLimitEntry)
deriving DecidableEq, Repr

/-- `rateLimitStore.get(clientId)`. -/
def storeGet : RateLimitStore → String → Option RateLimitEntry
  | [], _ => none
  | (k, v) :: rest, id => if k = id then some v else storeGet rest id

/-- `rateLimitStore.set(clientId, e)` (replace if present, append if not);
in-place mutation of an entry's `count` is modelled as a `storeSet` of the
updated entry. -/
def storeSet : RateLimitStore → String → RateLimitEntry → RateLimitStore
  | [], id, e => [(id, e)]
  | (k, v) :: rest, id, e =>
    if k = id then (k, e) :: rest else (k, v) :: storeSet rest id e

/-- `RATE_LIMIT_WINDOW = 60 * 1000` (one minute, in milliseconds). -/
def RATE_LIMIT_WINDOW : Nat := 60 * 1000

/-- `RATE_LIMIT_MAX_REQUESTS = 10` (requests per window). -/
def RATE_LIMIT_MAX_REQUESTS : Nat := 10

/-- `checkRateLimit(clientId)`: fixed-window rate limiting.  `now` is
`Date.now()`; the shared map is threaded explicitly, so the result is the
allow/deny decision together with the updated map. -/
def checkRateLimit (store : RateLimitStore) (clientId : String) (now : Nat) :
    Bool × RateLimitStore :=
  match storeGet store clientId with
  | none =>
    (true, storeSet store clientId ⟨1, now + RATE_LIMIT_WINDOW⟩)
  | some clientData =>
    if now > clientData.resetTime then
      (true, storeSet store clientId ⟨1, now + RATE_LIMIT_WINDOW⟩)
    else if clientData.count ≥ RATE_LIMIT_MAX_REQUESTS then
      (false, store)
    else
      (true, storeSet store clientId ⟨clientData.count + 1, clientData.resetTime⟩)

/-- A sequence of `checkRateLimit` calls for one client at the given times,
returning the list of decisions and the final map. -/
def runRateLimit (clientId : String) (ts : List Nat) (store : RateLimitStore) :
    List Bool × RateLimitStore :=
  match ts with
  | [] => ([], store)
  | t :: rest =>
    let step := checkRateLimit store clientId t
    let next := runRateLimit clientId rest step.2
    (step.1 :: next.1, next.2)

/-- A normalized search result: `{ id, title, url, description, favicon? }`. -/
structure SearchSource where
  id : String
  title : String
  url : String
  description : String
  favicon : Option String
deriving DecidableEq, Repr

/-- Models the platform `new URL(s).hostname` on the inputs this code feeds
it (absolute http/https result links): the constructor throws (`none`) on the
empty string and on strings without an explicit http(s) scheme, and otherwise
the hostname is the authority up to the first `/`, `:`, `?` or `#`. -/
def urlHostname (s : String) : Option String :=
  let rest : Option String :=
    if s.startsWith "https://" then some (s.drop 8)
    else if s.startsWith "http://" then some (s.drop 7)
    else none
  match rest with
  | none => none
  | some r =>
    let host := r.takeWhile (fun c => !(c == '/') && !(c == ':') && !(c == '?') && !(c == '#'))
    if host = "" then none else some host

/-- One raw item of the provider's `organic_results` array (string fields,
each possibly absent). -/
structure RawResult where
  title : Option String
  link : Option String
  snippet : Option String
  favicon : Option String
deriving DecidableEq, Repr

/-- The parsed provider response body: its `error` field (`undefinedV` when
absent) and its `organic_results` (`none` when missing or not an array). -/
structure SerpData where
  error : JSValue
  organic_results : Option (List RawResult)

/-- The favicon fallback `https://www.google.com/s2/favicons?domain=${new
URL(item.link || '').hostname}&sz=32`; throws when the URL does not parse. -/
def faviconFallback (link : String) : Except String String :=
  match urlHostname link with
  | some h => .ok ("https://www.google.com/s2/favicons?domain=" ++ h ++ "&sz=32")
  | none => .error "Invalid URL"

/-- The `map` callback of `performSerpApiSearch` on one item (`index` is the
0-based position in `organic_results`). -/
def mapResult (index : Nat) (item : RawResult) : Except String SearchSource := do
  let favicon ←
    match item.favicon with
    | some f => if f = "" then faviconFallback (jsOrStr item.link "") else .ok f
    | none => faviconFallback (jsOrStr item.link "")
  .ok { id := "serp-" ++ toString (index + 1),
        title := jsOrStr item.title "No title",
        url := jsOrStr item.link "",
        description := jsOrStr item.snippet "No description available",
        favicon := some favicon }

/-- `organic_results.map(...)`: apply `mapResult` in order from `startIdx`;
 the first throw aborts the whole map. -/
def mapResults (items : List RawResult) (startIdx : Nat) :
    Except String (List SearchSource) :=
  match items with
  | [] => .ok []
  | item :: rest => do
    let s ← mapResult startIdx item
    let tail ← mapResults rest (startIdx + 1)
    .ok (s :: tail)

/-- The body of `performSerpApiSearch`'s `try` block, from the point where the
HTTP response is available: `responseOk` is `response.ok` and `data` the
parsed JSON body. -/
def serpTryBody (responseOk : Bool) (data : SerpData) :
    Except String (List SearchSource) :=
  if !responseOk then
    .error "SerpAPI error: HTTP status not ok"
  else if truthy data.error then
    .error "SerpAPI error: provider-reported error"
  else
    match data.organic_results with
    | none => .ok []
    | some items => do
      let mapped ← mapResults items 0
      .ok (mapped.filter (fun item => item.url != ""))

/-- `performSerpApiSearch(query)` after the fetch: any throw inside the `try`
block is caught and re-signalled as the generic upstream error. -/
def performSerpApiSearch (responseOk : Bool) (data : SerpData) :
    Except String (List SearchSource) :=
  match serpTryBody responseOk data with
  | .ok sources => .ok sources
  | .error _ => .error "Failed to perform web search"

/-- The numbered `[index] title: description` context lines of
`generateAnswer`, starting at 0-based index `i`. -/
def contextLines (sources : List SearchSource) (i : Nat) : List String :=
  match sources with
  | [] => []
  | s :: rest =>
    ("[" ++ toString (i + 1) ++ "] " ++ s.title ++ ": " ++ s.description)
      :: contextLines rest (i + 1)

/-- `sourceContext`: the context block is the lines joined by blank lines. -/
def sourceContext (sources : List SearchSource) : String :=
  String.intercalate "\n\n" (contextLines sources 0)

/-- `generateAnswer(query, sources)` with the language-model call's outcome
passed in: `apiContent` is either a provider/network error or
`choices[0]?.message?.content` (`none` or `some ""` being falsy content). -/
def generateAnswer (apiContent : Except String (Option String)) :
    Except String String :=
  match apiContent with
  | .ok content => .ok (jsOrStr content "Unable to generate answer at this time.")
  | .error _ => .error "Failed to generate answer"

/-- The two required environment variables. -/
structure Env where
  SERPAPI_API_KEY : Option String
  OPENAI_API_KEY : Option String

/-- Truthiness of an environment value (`undefined` and `""` are missing). -/
def truthyEnv (v : Option String) : Bool :=
  match v with
  | some s => s != ""
  | none => false

/-- `validateEnvironment()`: throw when a required variable is missing. -/
def validateEnvironment (env : Env) : Except String Unit :=
  let missing :=
    (if truthyEnv env.SERPAPI_API_KEY then [] else ["SERPAPI_API_KEY"]) ++
    (if truthyEnv env.OPENAI_API_KEY then [] else ["OPENAI_API_KEY"])
  if missing.length > 0 then
    .error ("Missing required environment variables: " ++ String.intercalate ", " missing)
  else
    .ok ()

/-- The inbound request as the handler reads it: the two proxy headers, the
time of `Date.now()`, and the outcome of `request.json()` (whose error
message, on parse failure, comes from the platform's JSON parser). -/
structure Request where
  xForwardedFor : Option String
  xRealIp : Option String
  now : Nat
  body : Except String JSValue

/-- `request.headers.get('x-forwarded-for') || request.headers.get('x-real-ip')
|| 'unknown'`. -/
def clientIdOf (req : Request) : String :=
  jsOrStr req.xForwardedFor (jsOrStr req.xRealIp "unknown")

/-- The outcomes of the two outbound calls, passed in as inputs. -/
structure Upstream where
  serpOk : Bool
  serpData : SerpData
  openaiContent : Except String (Option String)

/-- A JSON response body: `{ error }` or `{ answer, sources }`. -/
inductive RespBody where
  | errorMsg (msg : String)
  | success (answer : String) (sources : List SearchSource)
deriving DecidableEq, Repr

/-- A response under construction: status, JSON body, headers. -/
structure NextResponse where
  status : Nat
  body : RespBody
  headers : List (String × String)
deriving DecidableEq, Repr

/-- `response.headers.set(name, value)`: replace an existing header of that
name, else append. -/
def headerSet : List (String × String) → String → String → List (String × String)
  | [], name, value => [(name, value)]
  | (k, v) :: rest, name, value =>
    if k = name then (k, value) :: rest else (k, v) :: headerSet rest name value

/-- `response.headers.get(name)`. -/
def headerGet : List (String × String) → String → Option String
  | [], _ => none
  | (k, v) :: rest, name => if k = name then some v else headerGet rest name

/-- `addSecurityHeaders(response)`: set the four fixed security headers. -/
def addSecurityHeaders (r : NextResponse) : NextResponse :=
  let h1 := headerSet r.headers "X-Content-Type-Options" "nosniff"
  let h2 := headerSet h1 "X-Frame-Options" "DENY"
  let h3 := headerSet h2 "X-XSS-Protection" "1; mode=block"
  let h4 := headerSet h3 "Referrer-Policy" "strict-origin-when-cross-origin"
  { r with headers := h4 }

/-- Whether `pat` occurs at the head of `s` (character-wise). -/
def listLead : List Char → List Char → Bool
  | [], _ => true
  | _ :: _, [] => false
  | a :: pat, b :: s => a == b && listLead pat s

/-- Whether `pat` occurs anywhere in `s` (character-wise). -/
def charsContains : List Char → List Char → Bool
  | [], pat => listLead pat []
  | c :: rest, pat => listLead pat (c :: rest) || charsContains rest pat

/-- JavaScript `s.includes(pat)`. -/
def strContains (s pat : String) : Bool :=
  charsContains s.data pat.data

/-- The `catch` block's error classification: inspect the thrown error's
message and choose status and body (`error.message.includes(...)` dispatch,
first match wins). -/
def classifyResponse (msg : String) : NextResponse :=
  if strContains msg "Missing required environment variables" then
    ⟨500, .errorMsg "Service configuration error", []⟩
  else if strContains msg "Query" || strContains msg "Invalid request" then
    ⟨400, .errorMsg msg, []⟩
  else
    ⟨500, .errorMsg "Internal server error", []⟩

/-- The observable steps of one `POST` invocation, in execution order. -/
inductive Event where
  | envCheck (ok : Bool)
  | rateLimit (allowed : Bool)
  | parseBody (ok : Bool)
  | validate (ok : Bool)
  | fetch (ok : Bool)
  | synthesize (sources : List SearchSource)
  | assemble
deriving DecidableEq, Repr

/-- The result of one `POST` invocation: the response, the rate-limit map
after the call, and the trace of steps taken. -/
structure PostResult where
  response : NextResponse
  store : RateLimitStore
  trace : List Event

/-- The `POST` handler.  The `try` block runs environment validation, the
rate-limit check, body parsing, request validation, the search fetch and the
answer synthesis in that order; any throw lands in the single `catch`, whose
classification is `classifyResponse`.  A rate-limit denial returns 429
directly from inside the `try` block. -/
def POST (env : Env) (req : Request) (up : Upstream) (store : RateLimitStore) :
    PostResult :=
  match validateEnvironment env with
  | .error msg =>
    { response := addSecurityHeaders (classifyResponse msg),
      store := store,
      trace := [.envCheck false] }
  | .ok _ =>
    let step := checkRateLimit store (clientIdOf req) req.now
    if !step.1 then
      { response := addSecurityHeaders
          ⟨429, .errorMsg "Rate limit exceeded. Please try again later.", []⟩,
        store := step.2,
        trace := [.envCheck true, .rateLimit false] }
    else
      match req.body with
      | .error msg =>
        { response := addSecurityHeaders (classifyResponse msg),
          store := step.2,
          trace := [.envCheck true, .rateLimit true, .parseBody false] }
      | .ok body =>
        match validateSearchRequest body with
        | .error msg =>
          { response := addSecurityHeaders (classifyResponse msg),
            store := step.2,
            trace := [.envCheck true, .rateLimit true, .parseBody true,
                      .validate false] }
        | .ok _ =>
          match performSerpApiSearch up.serpOk up.serpData with
          | .error msg =>
            { response := addSecurityHeaders (classifyResponse msg),
              store := step.2,
              trace := [.envCheck true, .rateLimit true, .parseBody true,
                        .validate true, .fetch false] }
          | .ok sources =>
            match generateAnswer up.openaiContent with
            | .error msg =>
              { response := addSecurityHeaders (classifyResponse msg),
                store := step.2,
                trace := [.envCheck true, .rateLimit true, .parseBody true,
                          .validate true, .fetch true, .synthesize sources] }
            | .ok answer =>
              { response := addSecurityHeaders ⟨200, .success answer sources, []⟩,
                store := step.2,
                trace := [.envCheck true, .rateLimit true, .parseBody true,
                          .validate true, .fetch true, .synthesize sources,
                          .assemble] }

/-- The `GET` handler: HTTP 405 with the security headers. -/
def GET : NextResponse :=
  addSecurityHeaders ⟨405, .errorMsg "Method not allowed", []⟩

/-! ## Helper lemmas -/

theorem storeGet_storeSet_self (store : RateLimitStore) (id : String)
    (e : RateLimitEntry) : storeGet (storeSet store id e) id = some e := by
  induction store with
  | nil => simp [storeSet, storeGet]
  | cons kv rest ih =>
    obtain ⟨k, v⟩ := kv
    by_cases hk : k = id
    · simp [storeSet, storeGet, hk]
    · simp [storeSet, storeGet, hk, ih]

theorem headerGet_headerSet_self (hs : List (String × String)) (k v : String) :
    headerGet (headerSet hs k v) k = some v := by
  induction hs with
  | nil => simp [headerSet, headerGet]
  | cons kv rest ih =>
    obtain ⟨k0, v0⟩ := kv
    by_cases hk : k0 = k
    · simp [headerSet, headerGet, hk]
    · simp [headerSet, headerGet, hk, ih]

theorem headerGet_headerSet_ne (hs : List (String × String)) (k k2 v : String)
    (h : k ≠ k2) : headerGet (headerSet hs k v) k2 = headerGet hs k2 := by
  induction hs with
  | nil => simp [headerSet, headerGet, h]
  | cons kv rest ih =>
    obtain ⟨k0, v0⟩ := kv
    by_cases hk : k0 = k
    · subst hk
      simp [headerSet, headerGet, h]
    · simp [headerSet, headerGet, hk, ih]

/-! ## C9: sanitization is idempotent -/

/-- C9: the denylist sanitization is idempotent: for every string `s`,
stripping the characters `< > " ' &` from `s` twice yields the same string as
stripping them once. -/
theorem sanitize_idempotent (s : String) : sanitize (sanitize s) = sanitize s := by
  unfold sanitize
  simp [List.filter_filter]

/-! ## C7: a rate-limit denial leaves the shared state unchanged -/

/-- C7: for every client with a live entry (`now` not past `resetTime`) whose
count has reached the configured maximum, `checkRateLimit` denies the request
and returns the shared map completely unchanged, so the client's own entry
and every other client's entry are the same after the call as before. -/
theorem checkRateLimit_deny_frame (store : RateLimitStore) (id : String)
    (now c r : Nat) (hget : storeGet store id = some ⟨c, r⟩)
    (hlive : now ≤ r) (hmax : RATE_LIMIT_MAX_REQUESTS ≤ c) :
    checkRateLimit store id now = (false, store) ∧
    storeGet (checkRateLimit store id now).2 id = some ⟨c, r⟩ ∧
    ∀ id2 : String, storeGet (checkRateLimit store id now).2 id2 = storeGet store id2 := by
  have hstep : checkRateLimit store id now = (false, store) := by
    unfold checkRateLimit
    rw [hget]
    simp [Nat.not_lt.mpr hlive, hmax]
  refine ⟨hstep, ?_, ?_⟩
  · rw [hstep]
    exact hget
  · intro id2
    rw [hstep]

/-- Witness for C7 at a concrete live, saturated entry. -/
theorem checkRateLimit_deny_frame_witness :
    checkRateLimit [("1.2.3.4", ⟨10, 100⟩)] "1.2.3.4" 50 =
      (false, [("1.2.3.4", ⟨10, 100⟩)]) :=
  (checkRateLimit_deny_frame [("1.2.3.4", ⟨10, 100⟩)] "1.2.3.4" 50 10 100
    (by decide) (by decide) (by decide)).1

/-! ## C10: a location of only denylist characters is kept as the empty string -/

/-- C10: for a body with a valid query and a string `location` whose trimmed
length is between 1 and 100 but which consists entirely of denylist
characters, validation succeeds and the returned `SearchRequest` has its
location field present and equal to the empty string (the length check runs
on the trimmed location before sanitization). -/
theorem validate_denylist_location (body : JSValue) (q l : String)
    (hbody : truthy body = true) (htype : jsTypeof body = "object")
    (hq : getField body "query" = .strV q)
    (hq0 : q ≠ "") (hqt : (jsTrim q).length ≠ 0) (hq5 : (jsTrim q).length ≤ 500)
    (hqs : (sanitize (jsTrim q)).length ≠ 0)
    (hl : getField body "location" = .strV l) (hl0 : l ≠ "")
    (hlt : 0 < (jsTrim l).length) (hl100 : (jsTrim l).length ≤ 100)
    (hld : ∀ c ∈ (jsTrim l).data, isDeny c = true) :
    validateSearchRequest body = .ok { query := sanitize (jsTrim q), location := some "" } := by
  have hsl : sanitize (jsTrim l) = "" := by
    unfold sanitize
    have hnil : (jsTrim l).data.filter (fun c => !(isDeny c)) = [] := by
      apply List.filter_eq_nil_iff.mpr
      intro c hc
      simp [hld c hc]
    rw [hnil]
  have g4 : ¬ ((jsTrim q).length > 500) := by omega
  unfold validateSearchRequest
  rw [hbody, htype, hq, hl]
  simp [truthy, jsTypeof, asStr, hq0, hqt, g4, hqs, hl0, hlt, hl100, hsl]

/-- Witness for C10: `{query: "hi", location: "<<<"}` validates to
`{query: "hi", location: ""}`. -/
theorem validate_denylist_location_witness :
    validateSearchRequest
        (.objV [("query", .strV "hi"), ("location", .strV "<<<")]) =
      .ok { query := "hi", location := some "" } := by
  have h := validate_denylist_location
    (.objV [("query", .strV "hi"), ("location", .strV "<<<")]) "hi" "<<<"
    (by decide) (by decide) (by rfl) (by decide) (by decide)
    (by decide) (by decide) (by rfl) (by decide) (by decide)
    (by decide) (by decide)
  rw [show sanitize (jsTrim "hi") = "hi" by decide] at h
  exact h

/-! ## C4: results lacking a usable url -/

/-- C4 (code behavior at the divergence): a result carrying neither a `link`
nor a `favicon` makes the favicon fallback evaluate `new URL('')`, which
throws, so the whole fetch fails with the generic upstream error instead of
the result merely being dropped; a result lacking a `link` but carrying a
`favicon` is dropped as described, the remaining results keeping their
1-based `serp-` indices and order. -/
theorem serp_missing_url_crashes :
    performSerpApiSearch true
        ⟨.undefinedV, some [⟨some "t", none, some "s", none⟩]⟩ =
      .error "Failed to perform web search" ∧
    performSerpApiSearch true
        ⟨.undefinedV, some [⟨some "t", none, some "s", some "f"⟩,
          ⟨some "u", some "http://example.com/a", some "d", some "g"⟩]⟩ =
      .ok [⟨"serp-2", "u", "http://example.com/a", "d", some "g"⟩] := by
  constructor
  · rfl
  · rfl

/-! ## C8: every response carries the four security headers -/

theorem addSecurityHeaders_secure (r : NextResponse) :
    headerGet (addSecurityHeaders r).headers "X-Content-Type-Options" = some "nosniff" ∧
    headerGet (addSecurityHeaders r).headers "X-Frame-Options" = some "DENY" ∧
    headerGet (addSecurityHeaders r).headers "X-XSS-Protection" = some "1; mode=block" ∧
    headerGet (addSecurityHeaders r).headers "Referrer-Policy" =
      some "strict-origin-when-cross-origin" := by
  unfold addSecurityHeaders
  refine ⟨?_, ?_, ?_, ?_⟩
  · rw [headerGet_headerSet_ne _ _ _ _ (by decide),
      headerGet_headerSet_ne _ _ _ _ (by decide),
      headerGet_headerSet_ne _ _ _ _ (by decide),
      headerGet_headerSet_self]
  · rw [headerGet_headerSet_ne _ _ _ _ (by decide),
      headerGet_headerSet_ne _ _ _ _ (by decide),
      headerGet_headerSet_self]
  · rw [headerGet_headerSet_ne _ _ _ _ (by decide),
      headerGet_headerSet_self]
  · rw [headerGet_headerSet_self]

theorem POST_response_is_secured (env : Env) (req : Request) (up : Upstream)
    (store : RateLimitStore) :
    ∃ r, (POST env req up store).response = addSecurityHeaders r := by
  unfold POST
  dsimp only
  repeat' split
  all_goals exact ⟨_, rfl⟩

/-- C8: every response produced by the endpoint — success, validation error,
rate-limit denial, configuration error, internal error, and the 405 rejection
of GET — carries the four fixed security headers with their fixed values. -/
theorem responses_carry_security_headers (env : Env) (req : Request)
    (up : Upstream) (store : RateLimitStore) :
    (headerGet (POST env req up store).response.headers "X-Content-Type-Options" =
        some "nosniff" ∧
      headerGet (POST env req up store).response.headers "X-Frame-Options" =
        some "DENY" ∧
      headerGet (POST env req up store).response.headers "X-XSS-Protection" =
        some "1; mode=block" ∧
      headerGet (POST env req up store).response.headers "Referrer-Policy" =
        some "strict-origin-when-cross-origin") ∧
    (headerGet GET.headers "X-Content-Type-Options" = some "nosniff" ∧
      headerGet GET.headers "X-Frame-Options" = some "DENY" ∧
      headerGet GET.headers "X-XSS-Protection" = some "1; mode=block" ∧
      headerGet GET.headers "Referrer-Policy" =
        some "strict-origin-when-cross-origin") := by
  constructor
  · obtain ⟨r, hr⟩ := POST_response_is_secured env req up store
    rw [hr]
    exact addSecurityHeaders_secure r
  · exact addSecurityHeaders_secure ⟨405, .errorMsg "Method not allowed", []⟩

/-! ## C5: per-request component order -/

/-- C5 (the claim refuted at a concrete input): with a fresh rate-limit map
and a body that fails validation (`{}`), the handler still answers 400, but
the rate limiter has already been consulted and mutated: the client's entry
exists afterwards, and the trace shows the rate-limit check strictly before
validation.  This contradicts validation happening before the rate-limit
check. -/
theorem POST_validate_after_rateLimit_cex :
    (POST ⟨some "k1", some "k2"⟩ ⟨some "1.2.3.4", none, 5, .ok (.objV [])⟩
        ⟨true, ⟨.undefinedV, none⟩, .ok (some "a")⟩ []).response.status = 400 ∧
    (POST ⟨some "k1", some "k2"⟩ ⟨some "1.2.3.4", none, 5, .ok (.objV [])⟩
        ⟨true, ⟨.undefinedV, none⟩, .ok (some "a")⟩ []).store =
      [("1.2.3.4", ⟨1, 5 + RATE_LIMIT_WINDOW⟩)] ∧
    (POST ⟨some "k1", some "k2"⟩ ⟨some "1.2.3.4", none, 5, .ok (.objV [])⟩
        ⟨true, ⟨.undefinedV, none⟩, .ok (some "a")⟩ []).trace =
      [.envCheck true, .rateLimit true, .parseBody true, .validate false] := by
  refine ⟨rfl, rfl, rfl⟩

/-- C5 (amended): per request the components run strictly linearly in the
order environment check → rate-limit check → body parse → validation → source
fetch → answer synthesis → assembly, each stage reached only if the previous
ones succeeded; moreover, when the body fails validation, the rate limiter
has already run, and the final map is the one the rate-limit check produced. -/
theorem POST_trace_linear (env : Env) (req : Request) (up : Upstream)
    (store : RateLimitStore) :
    ((POST env req up store).trace = [.envCheck false] ∨
      (POST env req up store).trace = [.envCheck true, .rateLimit false] ∨
      (POST env req up store).trace =
        [.envCheck true, .rateLimit true, .parseBody false] ∨
      (POST env req up store).trace =
        [.envCheck true, .rateLimit true, .parseBody true, .validate false] ∨
      (POST env req up store).trace =
        [.envCheck true, .rateLimit true, .parseBody true, .validate true,
         .fetch false] ∨
      (∃ sources, (POST env req up store).trace =
        [.envCheck true, .rateLimit true, .parseBody true, .validate true,
         .fetch true, .synthesize sources]) ∨
      (∃ sources, (POST env req up store).trace =
        [.envCheck true, .rateLimit true, .parseBody true, .validate true,
         .fetch true, .synthesize sources, .assemble])) ∧
    (∀ body msg, validateEnvironment env = .ok () →
      (checkRateLimit store (clientIdOf req) req.now).1 = true →
      req.body = .ok body → validateSearchRequest body = .error msg →
      (POST env req up store).store =
        (checkRateLimit store (clientIdOf req) req.now).2) := by
  constructor
  · unfold POST
    dsimp only
    repeat' split
    · tauto
    · tauto
    · tauto
    · tauto
    · tauto
    · exact Or.inr (Or.inr (Or.inr (Or.inr (Or.inr (Or.inl ⟨_, rfl⟩)))))
    · exact Or.inr (Or.inr (Or.inr (Or.inr (Or.inr (Or.inr ⟨_, rfl⟩)))))
  · intro body msg henv hallow hbody hval
    unfold POST
    rw [henv]
    dsimp only
    rw [hallow, hbody]
    simp only [Bool.not_true, Bool.false_eq_true, if_false]
    rw [hval]

/-- Witness for the hypothesis-bearing part of the C5 theorem, at the same
concrete invalid-body request. -/
theorem POST_trace_linear_witness :
    (POST ⟨some "k1", some "k2"⟩ ⟨some "9.9.9.9", none, 7, .ok (.objV [])⟩
        ⟨true, ⟨.undefinedV, none⟩, .ok (some "a")⟩ []).store =
      (checkRateLimit [] "9.9.9.9" 7).2 :=
  (POST_trace_linear ⟨some "k1", some "k2"⟩ ⟨some "9.9.9.9", none, 7, .ok (.objV [])⟩
      ⟨true, ⟨.undefinedV, none⟩, .ok (some "a")⟩ []).2
    (.objV []) "Query is required and must be a string" rfl rfl rfl rfl

/-! ## C6: an empty results array still reaches the synthesizer -/

/-- C6: when the provider response is OK, reports no error, and has no
`organic_results` array, the fetcher returns the empty sequence rather than
failing, and — for any request that reaches the fetch — the synthesizer is
still invoked with that empty source list, whose context block is the empty
string. -/
theorem serp_empty_results_synthesized (env : Env) (req : Request)
    (up : Upstream) (store : RateLimitStore) (body : JSValue)
    (henv : validateEnvironment env = .ok ())
    (hallow : (checkRateLimit store (clientIdOf req) req.now).1 = true)
    (hbody : req.body = .ok body)
    (hval : (validateSearchRequest body).isOk = true)
    (hok : up.serpOk = true) (herr : truthy up.serpData.error = false)
    (hres : up.serpData.organic_results = none) :
    performSerpApiSearch up.serpOk up.serpData = .ok [] ∧
    Event.synthesize [] ∈ (POST env req up store).trace ∧
    sourceContext [] = "" := by
  have hfetch : performSerpApiSearch up.serpOk up.serpData = .ok [] := by
    unfold performSerpApiSearch serpTryBody
    rw [hok, herr, hres]
    rfl
  refine ⟨hfetch, ?_, rfl⟩
  obtain ⟨r, hr⟩ : ∃ r, validateSearchRequest body = .ok r := by
    rcases hv : validateSearchRequest body with msg | r
    · rw [hv] at hval
      simp [Except.isOk, Except.toBool] at hval
    · exact ⟨r, rfl⟩
  unfold POST
  rw [henv]
  dsimp only
  rw [hallow, hbody]
  simp only [Bool.not_true, Bool.false_eq_true, if_false]
  rw [hr, hfetch]
  rcases up.openaiContent with msg | content <;> simp [generateAnswer]

/-- Witness for C6 at a concrete request and an empty provider response. -/
theorem serp_empty_results_synthesized_witness :
    performSerpApiSearch true ⟨.undefinedV, none⟩ = .ok [] ∧
    Event.synthesize [] ∈
      (POST ⟨some "k1", some "k2"⟩
        ⟨some "8.8.8.8", none, 3, .ok (.objV [("query", .strV "hi")])⟩
        ⟨true, ⟨.undefinedV, none⟩, .ok (some "ans")⟩ []).trace ∧
    sourceContext [] = "" :=
  serp_empty_results_synthesized ⟨some "k1", some "k2"⟩
    ⟨some "8.8.8.8", none, 3, .ok (.objV [("query", .strV "hi")])⟩
    ⟨true, ⟨.undefinedV, none⟩, .ok (some "ans")⟩ []
    (.objV [("query", .strV "hi")]) rfl rfl rfl (by rfl) rfl rfl rfl

/-! ## C3: validator success/failure characterization -/

theorem validateSearchRequest_ok_conditions (body : JSValue) (r : SearchRequest)
    (h : validateSearchRequest body = .ok r) :
    truthy body = true ∧ jsTypeof body = "object" ∧
    ∃ q, getField body "query" = .strV q ∧ q ≠ "" ∧
      (jsTrim q).length ≠ 0 ∧ (jsTrim q).length ≤ 500 ∧
      (sanitize (jsTrim q)).length ≠ 0 := by
  unfold validateSearchRequest at h
  by_cases c1 : (!(truthy body) || jsTypeof body != "object") = true
  · rw [if_pos c1] at h
    exact absurd h (by simp)
  · rw [if_neg c1] at h
    dsimp only at h
    have hb1 : truthy body = true := by
      cases hbv : truthy body
      · exact absurd (by simp [hbv]) c1
      · rfl
    have hb2 : jsTypeof body = "object" := by
      by_contra hb
      exact c1 (by simp [hb])
    by_cases c2 : (!(truthy (getField body "query")) ||
        jsTypeof (getField body "query") != "string") = true
    · rw [if_pos c2] at h
      exact absurd h (by simp)
    · have hq1 : truthy (getField body "query") = true := by
        cases hqv : truthy (getField body "query")
        · exact absurd (by simp [hqv]) c2
        · rfl
      have hq2 : jsTypeof (getField body "query") = "string" := by
        by_contra hq
        exact c2 (by simp [hq])
      rw [if_neg c2] at h
      rcases hgf : getField body "query" with _ | _ | b | n | s | fs | es <;>
        rw [hgf] at hq1 hq2 h <;>
        simp only [jsTypeof] at hq2 <;> try exact absurd hq2 (by decide)
      have hs0 : s ≠ "" := by
        simpa [truthy] using hq1
      dsimp only [asStr] at h
      by_cases c3 : ((jsTrim s).length == 0) = true
      · rw [if_pos c3] at h
        exact absurd h (by simp)
      · rw [if_neg c3] at h
        by_cases c4 : (jsTrim s).length > 500
        · rw [if_pos c4] at h
          exact absurd h (by simp)
        · rw [if_neg c4] at h
          by_cases c5 : ((sanitize (jsTrim s)).length == 0) = true
          · rw [if_pos c5] at h
            exact absurd h (by simp)
          · refine ⟨hb1, hb2, s, rfl, hs0, ?_, ?_, ?_⟩
            · simpa using c3
            · omega
            · simpa using c5

theorem validateSearchRequest_ok_of (body : JSValue) (q : String)
    (h1 : truthy body = true) (h2 : jsTypeof body = "object")
    (hq : getField body "query" = .strV q) (hq0 : q ≠ "")
    (h3 : (jsTrim q).length ≠ 0) (h4 : (jsTrim q).length ≤ 500)
    (h5 : (sanitize (jsTrim q)).length ≠ 0) :
    ∃ r, validateSearchRequest body = .ok r := by
  have g4 : ¬ ((jsTrim q).length > 500) := by omega
  unfold validateSearchRequest
  rw [h1, h2, hq]
  simp only [truthy, jsTypeof, asStr, Bool.not_true, bne_self_eq_false,
    Bool.or_false, Bool.false_or, if_false]
  simp [hq0, h3, g4, h5]

theorem validateSearchRequest_ok_query (body : JSValue) (q : String)
    (r : SearchRequest) (hq : getField body "query" = .strV q)
    (h : validateSearchRequest body = .ok r) :
    r.query = sanitize (jsTrim q) := by
  unfold validateSearchRequest at h
  by_cases c1 : (!(truthy body) || jsTypeof body != "object") = true
  · rw [if_pos c1] at h
    exact absurd h (by simp)
  · rw [if_neg c1] at h
    dsimp only at h
    rw [hq] at h
    by_cases c2 : (!(truthy (JSValue.strV q)) ||
        jsTypeof (JSValue.strV q) != "string") = true
    · rw [if_pos c2] at h
      exact absurd h (by simp)
    · rw [if_neg c2] at h
      dsimp only [asStr] at h
      by_cases c3 : ((jsTrim q).length == 0) = true
      · rw [if_pos c3] at h
        exact absurd h (by simp)
      · rw [if_neg c3] at h
        by_cases c4 : (jsTrim q).length > 500
        · rw [if_pos c4] at h
          exact absurd h (by simp)
        · rw [if_neg c4] at h
          by_cases c5 : ((sanitize (jsTrim q)).length == 0) = true
          · rw [if_pos c5] at h
            exact absurd h (by simp)
          · rw [if_neg c5] at h
            cases h
            rfl

/-- C3: the validator succeeds exactly when the body is a truthy object whose
`query` field is a non-empty string that, after trimming, is non-empty, at
most 500 characters, and non-empty after denylist stripping; and on success
the returned query is the trimmed, denylist-stripped input.  (Absent bodies,
non-objects, missing or non-string `query` fields, and the empty/too-long/
stripped-to-empty cases are exactly the complement, on which it fails.) -/
theorem validateSearchRequest_spec (body : JSValue) :
    ((∃ r, validateSearchRequest body = .ok r) ↔
      (truthy body = true ∧ jsTypeof body = "object" ∧
        ∃ q, getField body "query" = .strV q ∧ q ≠ "" ∧
          (jsTrim q).length ≠ 0 ∧ (jsTrim q).length ≤ 500 ∧
          (sanitize (jsTrim q)).length ≠ 0)) ∧
    (∀ q r, getField body "query" = .strV q →
      validateSearchRequest body = .ok r → r.query = sanitize (jsTrim q)) := by
  refine ⟨⟨?_, ?_⟩, ?_⟩
  · rintro ⟨r, hr⟩
    exact validateSearchRequest_ok_conditions body r hr
  · rintro ⟨h1, h2, q, hq, hq0, h3, h4, h5⟩
    exact validateSearchRequest_ok_of body q h1 h2 hq hq0 h3 h4 h5
  · intro q r hq hr
    exact validateSearchRequest_ok_query body q r hq hr

/-- Witness for C3: on `{query: "  hi  "}` the validator returns the trimmed,
stripped query. -/
theorem validateSearchRequest_spec_witness :
    SearchRequest.query ⟨"hi", none⟩ = sanitize (jsTrim "  hi  ") :=
  (validateSearchRequest_spec (.objV [("query", .strV "  hi  ")])).2
    "  hi  " ⟨"hi", none⟩ rfl (by rfl)

/-! ## C2: fixed-window rate limiting over a call sequence -/

theorem runRateLimit_nil (id : String) (store : RateLimitStore) :
    runRateLimit id [] store = ([], store) := rfl

theorem runRateLimit_cons (id : String) (t : Nat) (rest : List Nat)
    (store : RateLimitStore) :
    runRateLimit id (t :: rest) store =
      ((checkRateLimit store id t).1 ::
          (runRateLimit id rest (checkRateLimit store id t).2).1,
        (runRateLimit id rest (checkRateLimit store id t).2).2) := rfl

theorem checkRateLimit_allow_step (store : RateLimitStore) (id : String)
    (t c r : Nat) (hget : storeGet store id = some ⟨c, r⟩) (ht : t ≤ r)
    (hc : c < RATE_LIMIT_MAX_REQUESTS) :
    checkRateLimit store id t = (true, storeSet store id ⟨c + 1, r⟩) := by
  unfold checkRateLimit
  rw [hget]
  simp [Nat.not_lt.mpr ht, Nat.not_le.mpr hc]

theorem runRateLimit_live (id : String) (r : Nat) (ts : List Nat) :
    ∀ (store : RateLimitStore) (c : Nat),
      storeGet store id = some ⟨c, r⟩ →
      (∀ t ∈ ts, t ≤ r) → c + ts.length ≤ RATE_LIMIT_MAX_REQUESTS →
      (runRateLimit id ts store).1 = List.replicate ts.length true ∧
      storeGet (runRateLimit id ts store).2 id = some ⟨c + ts.length, r⟩ := by
  induction ts with
  | nil =>
    intro store c hget _ _
    exact ⟨rfl, hget⟩
  | cons t rest ih =>
    intro store c hget hts hlen
    have ht : t ≤ r := hts t (by simp)
    have hc : c < RATE_LIMIT_MAX_REQUESTS := by
      simp only [List.length_cons] at hlen
      omega
    have hstep := checkRateLimit_allow_step store id t c r hget ht hc
    have hget2 : storeGet (storeSet store id ⟨c + 1, r⟩) id = some ⟨c + 1, r⟩ :=
      storeGet_storeSet_self store id ⟨c + 1, r⟩
    have hrest := ih (storeSet store id ⟨c + 1, r⟩) (c + 1) hget2
      (fun t2 ht2 => hts t2 (by simp [ht2]))
      (by simp only [List.length_cons] at hlen; omega)
    rw [runRateLimit_cons, hstep]
    dsimp only
    constructor
    · rw [List.length_cons, List.replicate_succ]
      exact congrArg (true :: ·) hrest.1
    · rw [List.length_cons, show c + (rest.length + 1) = (c + 1) + rest.length by omega]
      exact hrest.2

theorem runRateLimit_append (id : String) (a b : List Nat) :
    ∀ st : RateLimitStore,
      runRateLimit id (a ++ b) st =
        ((runRateLimit id a st).1 ++ (runRateLimit id b (runRateLimit id a st).2).1,
          (runRateLimit id b (runRateLimit id a st).2).2) := by
  induction a with
  | nil =>
    intro st
    rw [runRateLimit_nil]
    rfl
  | cons x xs ihx =>
    intro st
    simp only [List.cons_append, runRateLimit_cons, ihx]

/-- C2: from a fresh state, with the default window (60000 ms) and maximum
(10): the first 10 calls at times within the first call's window are all
allowed, the 11th call within the same window is denied, and the first call
at a time strictly after the entry's `resetTime` is allowed and reinitializes
the entry to `{count: 1, resetTime: now + window}`. -/
theorem rateLimit_window_behavior (id : String) (t0 tLast tReset : Nat)
    (ts : List Nat) (store : RateLimitStore)
    (h0 : storeGet store id = none)
    (hts : ∀ t ∈ ts, t ≤ t0 + RATE_LIMIT_WINDOW)
    (hlen : ts.length = RATE_LIMIT_MAX_REQUESTS - 1)
    (hlast : tLast ≤ t0 + RATE_LIMIT_WINDOW)
    (hreset : t0 + RATE_LIMIT_WINDOW < tReset) :
    (runRateLimit id (t0 :: (ts ++ [tLast])) store).1 =
      List.replicate RATE_LIMIT_MAX_REQUESTS true ++ [false] ∧
    (checkRateLimit (runRateLimit id (t0 :: (ts ++ [tLast])) store).2 id tReset).1 =
      true ∧
    storeGet
        (checkRateLimit (runRateLimit id (t0 :: (ts ++ [tLast])) store).2 id tReset).2
        id =
      some ⟨1, tReset + RATE_LIMIT_WINDOW⟩ := by
  have hfirst : checkRateLimit store id t0 =
      (true, storeSet store id ⟨1, t0 + RATE_LIMIT_WINDOW⟩) := by
    unfold checkRateLimit
    rw [h0]
  have hget1 : storeGet (storeSet store id ⟨1, t0 + RATE_LIMIT_WINDOW⟩) id =
      some ⟨1, t0 + RATE_LIMIT_WINDOW⟩ :=
    storeGet_storeSet_self store id ⟨1, t0 + RATE_LIMIT_WINDOW⟩
  have hmid := runRateLimit_live id (t0 + RATE_LIMIT_WINDOW) ts
    (storeSet store id ⟨1, t0 + RATE_LIMIT_WINDOW⟩) 1 hget1 hts
    (by rw [hlen]; decide)
  have hc10 : 1 + ts.length = RATE_LIMIT_MAX_REQUESTS := by
    rw [hlen]; decide
  have hdeny : checkRateLimit
      (runRateLimit id ts (storeSet store id ⟨1, t0 + RATE_LIMIT_WINDOW⟩)).2 id tLast =
      (false,
        (runRateLimit id ts (storeSet store id ⟨1, t0 + RATE_LIMIT_WINDOW⟩)).2) := by
    unfold checkRateLimit
    rw [hmid.2, hc10]
    simp [Nat.not_lt.mpr hlast]
  have hsplit : runRateLimit id (t0 :: (ts ++ [tLast])) store =
      ((true :: (runRateLimit id ts (storeSet store id ⟨1, t0 + RATE_LIMIT_WINDOW⟩)).1)
          ++ [false],
        (runRateLimit id ts (storeSet store id ⟨1, t0 + RATE_LIMIT_WINDOW⟩)).2) := by
    show runRateLimit id ((t0 :: ts) ++ [tLast]) store = _
    rw [runRateLimit_append, runRateLimit_cons, hfirst]
    dsimp only
    rw [runRateLimit_cons, runRateLimit_nil, hdeny]
  refine ⟨?_, ?_, ?_⟩
  · rw [hsplit]
    dsimp only
    rw [hmid.1, hlen]
    decide
  · rw [hsplit]
    dsimp only
    unfold checkRateLimit
    rw [hmid.2]
    simp [hreset]
  · rw [hsplit]
    dsimp only
    unfold checkRateLimit
    rw [hmid.2]
    simp only [hreset, if_pos]
    exact storeGet_storeSet_self _ id _

/-- Witness for C2: 11 calls at times 0..10 from a fresh map, then a call at
time 60001. -/
theorem rateLimit_window_behavior_witness :
    (runRateLimit "c" (0 :: ([1, 2, 3, 4, 5, 6, 7, 8, 9] ++ [10])) []).1 =
      List.replicate RATE_LIMIT_MAX_REQUESTS true ++ [false] ∧
    (checkRateLimit (runRateLimit "c" (0 :: ([1, 2, 3, 4, 5, 6, 7, 8, 9] ++ [10])) []).2
        "c" 60001).1 = true ∧
    storeGet
        (checkRateLimit (runRateLimit "c" (0 :: ([1, 2, 3, 4, 5, 6, 7, 8, 9] ++ [10])) []).2
          "c" 60001).2 "c" =
      some ⟨1, 60001 + RATE_LIMIT_WINDOW⟩ :=
  rateLimit_window_behavior "c" 0 10 60001 [1, 2, 3, 4, 5, 6, 7, 8, 9] []
    (by decide) (by decide) (by decide) (by decide) (by decide)

/-! ## C1: error-to-status mapping of the handler -/

theorem addSecurityHeaders_status (r : NextResponse) :
    (addSecurityHeaders r).status = r.status := rfl

theorem addSecurityHeaders_body (r : NextResponse) :
    (addSecurityHeaders r).body = r.body := rfl

theorem validateEnvironment_error_classify (env : Env) (msg : String)
    (h : validateEnvironment env = .error msg) :
    classifyResponse msg = ⟨500, .errorMsg "Service configuration error", []⟩ := by
  unfold validateEnvironment at h
  by_cases h1 : truthyEnv env.SERPAPI_API_KEY = true <;>
    by_cases h2 : truthyEnv env.OPENAI_API_KEY = true <;>
    simp [h1, h2] at h <;> subst h <;> rfl

theorem validateSearchRequest_error_msgs (body : JSValue) (msg : String)
    (h : validateSearchRequest body = .error msg) :
    msg = "Invalid request body" ∨
    msg = "Query is required and must be a string" ∨
    msg = "Query cannot be empty" ∨
    msg = "Query is too long (max 500 characters)" ∨
    msg = "Query contains only invalid characters" := by
  unfold validateSearchRequest at h
  by_cases c1 : (!(truthy body) || jsTypeof body != "object") = true
  · rw [if_pos c1] at h
    simp only [Except.error.injEq] at h
    tauto
  · rw [if_neg c1] at h
    dsimp only at h
    by_cases c2 : (!(truthy (getField body "query")) ||
        jsTypeof (getField body "query") != "string") = true
    · rw [if_pos c2] at h
      simp only [Except.error.injEq] at h
      tauto
    · rw [if_neg c2] at h
      by_cases c3 : ((jsTrim (asStr (getField body "query"))).length == 0) = true
      · rw [if_pos c3] at h
        simp only [Except.error.injEq] at h
        tauto
      · rw [if_neg c3] at h
        by_cases c4 : (jsTrim (asStr (getField body "query"))).length > 500
        · rw [if_pos c4] at h
          simp only [Except.error.injEq] at h
          tauto
        · rw [if_neg c4] at h
          by_cases c5 : ((sanitize (jsTrim (asStr (getField body "query")))).length == 0) = true
          · rw [if_pos c5] at h
            simp only [Except.error.injEq] at h
            tauto
          · rw [if_neg c5] at h
            exact absurd h (by simp)

theorem validateSearchRequest_error_classify (body : JSValue) (msg : String)
    (h : validateSearchRequest body = .error msg) :
    classifyResponse msg = ⟨400, .errorMsg msg, []⟩ := by
  rcases validateSearchRequest_error_msgs body msg h with h1 | h1 | h1 | h1 | h1 <;>
    subst h1 <;> rfl

theorem performSerpApiSearch_error_msg (ok : Bool) (data : SerpData) (msg : String)
    (h : performSerpApiSearch ok data = .error msg) :
    msg = "Failed to perform web search" := by
  unfold performSerpApiSearch at h
  rcases hs : serpTryBody ok data with m | sources <;> rw [hs] at h
  · simpa [eq_comm] using h
  · exact absurd h (by simp)

theorem generateAnswer_error_msg (api : Except String (Option String)) (msg : String)
    (h : generateAnswer api = .error msg) : msg = "Failed to generate answer" := by
  unfold generateAnswer at h
  rcases api with m | content
  · simpa [eq_comm] using h
  · exact absurd h (by simp)

/-- C1 (amended): the handler resolves each failure by substring dispatch on
the error message: a missing configuration gives HTTP 500 with the generic
configuration message; a rate-limit denial gives HTTP 429 with the fixed
message; a validator failure gives HTTP 400 with the validator's message
verbatim; a search-fetch or synthesis failure gives HTTP 500 with the generic
opaque message (the upstream detail never appears in the body); a body-parse
failure whose platform message contains none of the dispatch markers gives
the generic HTTP 500; but a body-parse failure whose platform message happens
to contain "Query" or "Invalid request" (as V8 parse messages quoting the raw
body can) is misclassified and returned as HTTP 400 with the platform message
verbatim, leaking the underlying detail. -/
theorem POST_error_mapping (env : Env) (req : Request) (up : Upstream)
    (store : RateLimitStore) :
    (∀ msg, validateEnvironment env = .error msg →
      (POST env req up store).response.status = 500 ∧
      (POST env req up store).response.body =
        .errorMsg "Service configuration error") ∧
    (validateEnvironment env = .ok () →
      (checkRateLimit store (clientIdOf req) req.now).1 = false →
      (POST env req up store).response.status = 429 ∧
      (POST env req up store).response.body =
        .errorMsg "Rate limit exceeded. Please try again later.") ∧
    (∀ body msg, validateEnvironment env = .ok () →
      (checkRateLimit store (clientIdOf req) req.now).1 = true →
      req.body = .ok body → validateSearchRequest body = .error msg →
      (POST env req up store).response.status = 400 ∧
      (POST env req up store).response.body = .errorMsg msg) ∧
    (∀ body r msg, validateEnvironment env = .ok () →
      (checkRateLimit store (clientIdOf req) req.now).1 = true →
      req.body = .ok body → validateSearchRequest body = .ok r →
      performSerpApiSearch up.serpOk up.serpData = .error msg →
      (POST env req up store).response.status = 500 ∧
      (POST env req up store).response.body = .errorMsg "Internal server error") ∧
    (∀ body r sources msg, validateEnvironment env = .ok () →
      (checkRateLimit store (clientIdOf req) req.now).1 = true →
      req.body = .ok body → validateSearchRequest body = .ok r →
      performSerpApiSearch up.serpOk up.serpData = .ok sources →
      generateAnswer up.openaiContent = .error msg →
      (POST env req up store).response.status = 500 ∧
      (POST env req up store).response.body = .errorMsg "Internal server error") ∧
    (∀ msg, validateEnvironment env = .ok () →
      (checkRateLimit store (clientIdOf req) req.now).1 = true →
      req.body = .error msg →
      strContains msg "Missing required environment variables" = false →
      strContains msg "Query" = false →
      strContains msg "Invalid request" = false →
      (POST env req up store).response.status = 500 ∧
      (POST env req up store).response.body = .errorMsg "Internal server error") ∧
    (∀ msg, validateEnvironment env = .ok () →
      (checkRateLimit store (clientIdOf req) req.now).1 = true →
      req.body = .error msg →
      strContains msg "Missing required environment variables" = false →
      (strContains msg "Query" = true ∨ strContains msg "Invalid request" = true) →
      (POST env req up store).response.status = 400 ∧
      (POST env req up store).response.body = .errorMsg msg) := by
  refine ⟨?_, ?_, ?_, ?_, ?_, ?_, ?_⟩
  · intro msg henv
    unfold POST
    rw [henv]
    dsimp only
    rw [validateEnvironment_error_classify env msg henv]
    exact ⟨rfl, rfl⟩
  · intro henv hdeny
    unfold POST
    rw [henv]
    dsimp only
    rw [hdeny]
    exact ⟨rfl, rfl⟩
  · intro body msg henv hallow hbody hval
    unfold POST
    rw [henv]
    dsimp only
    rw [hallow, hbody]
    simp only [Bool.not_true, Bool.false_eq_true, if_false]
    rw [hval]
    dsimp only
    rw [validateSearchRequest_error_classify body msg hval]
    exact ⟨rfl, rfl⟩
  · intro body r msg henv hallow hbody hval hserp
    unfold POST
    rw [henv]
    dsimp only
    rw [hallow, hbody]
    simp only [Bool.not_true, Bool.false_eq_true, if_false]
    rw [hval]
    dsimp only
    rw [hserp]
    dsimp only
    rw [performSerpApiSearch_error_msg up.serpOk up.serpData msg hserp]
    exact ⟨rfl, rfl⟩
  · intro body r sources msg henv hallow hbody hval hserp hgen
    unfold POST
    rw [henv]
    dsimp only
    rw [hallow, hbody]
    simp only [Bool.not_true, Bool.false_eq_true, if_false]
    rw [hval]
    dsimp only
    rw [hserp]
    dsimp only
    rw [hgen]
    dsimp only
    rw [generateAnswer_error_msg up.openaiContent msg hgen]
    exact ⟨rfl, rfl⟩
  · intro msg henv hallow hbody hm1 hm2 hm3
    unfold POST
    rw [henv]
    dsimp only
    rw [hallow, hbody]
    simp only [Bool.not_true, Bool.false_eq_true, if_false]
    unfold classifyResponse
    rw [hm1, hm2, hm3]
    exact ⟨rfl, rfl⟩
  · intro msg henv hallow hbody hm1 hmark
    unfold POST
    rw [henv]
    dsimp only
    rw [hallow, hbody]
    simp only [Bool.not_true, Bool.false_eq_true, if_false]
    unfold classifyResponse
    rw [hm1]
    rcases hmark with hq | hi
    · rw [hq]
      exact ⟨rfl, rfl⟩
    · rw [hi]
      simp only [Bool.or_true]
      exact ⟨rfl, rfl⟩

/-- C1 (the claim refuted at a concrete input): a body-parse failure is not a
failure of the request validator, so under the claim it must give the generic
HTTP 500; but when the platform parse message quotes a raw body containing
"Query" (as V8 messages of the form
`Unexpected token Q, "Query x" is not valid JSON` do), the substring dispatch
returns HTTP 400 with the platform message verbatim, leaking the detail. -/
theorem POST_parse_error_leak_cex :
    (POST ⟨some "k1", some "k2"⟩
        ⟨some "3.3.3.3", none, 2,
          .error "Unexpected token Q, \"Query x\" is not valid JSON"⟩
        ⟨true, ⟨.undefinedV, none⟩, .ok (some "a")⟩ []).response.status = 400 ∧
    (POST ⟨some "k1", some "k2"⟩
        ⟨some "3.3.3.3", none, 2,
          .error "Unexpected token Q, \"Query x\" is not valid JSON"⟩
        ⟨true, ⟨.undefinedV, none⟩, .ok (some "a")⟩ []).response.body =
      .errorMsg "Unexpected token Q, \"Query x\" is not valid JSON" :=
  ⟨rfl, rfl⟩

/-- Witness for C1 at a concrete request whose body fails validation: the
validator message is passed through verbatim with HTTP 400. -/
theorem POST_error_mapping_witness :
    (POST ⟨some "k1", some "k2"⟩ ⟨some "2.2.2.2", none, 1, .ok (.objV [])⟩
        ⟨true, ⟨.undefinedV, none⟩, .ok (some "a")⟩ []).response.status = 400 ∧
    (POST ⟨some "k1", some "k2"⟩ ⟨some "2.2.2.2", none, 1, .ok (.objV [])⟩
        ⟨true, ⟨.undefinedV, none⟩, .ok (some "a")⟩ []).response.body =
      .errorMsg "Query is required and must be a string" :=
  (POST_error_mapping ⟨some "k1", some "k2"⟩
      ⟨some "2.2.2.2", none, 1, .ok (.objV [])⟩
      ⟨true, ⟨.undefinedV, none⟩, .ok (some "a")⟩ []).2.2.1
    (.objV []) "Query is required and must be a string" rfl rfl rfl rfl
